import Mathlib

set_option maxRecDepth 100000

/-!
Verification model of the serverless AI content pipe.

This file gives a shallow embedding, in Lean 4, of the core logic of the
repository:

* the JavaScript string/regex operations that the newsletter orchestrator
  (`src/backend/nodejs/src/lambdas/generate-newsletter.ts`) uses to parse the
  generation model's output (`/SUBJECT:\s*(.+?)(?:\n|$)/i` and
  `/BODY:\s*([\s\S]+)/i`, together with `String.prototype.trim`),
* SHA-256 (FIPS 180-4), modelling Node's
  `createHash('sha256').update(url).digest('hex')`,
* the embedding pipeline
  (`src/code/nodejs/src/use-cases/process-news-embeddings.ts`),
* the ingestion pipeline (`FetchNewsUseCase`,
  `src/backend/nodejs/src/use-cases/factories/make-fetch-news.ts`),
* the newsletter orchestrator handler itself.

External collaborators (Bedrock, Pinecone, SES, S3, the news API) are modelled
as environments: their responses are inputs of the model, and every outbound
call the code would make is recorded in an explicit call trace, so that
"client X is never invoked" is a statement about the trace.

Machine integers are modelled as `Nat` with explicit `% 2 ^ 32` where the
source (SHA-256) overflows; strings are Lean `String`s (packed `List Char`),
and the regex fragments used by the source are modelled by direct
backtracking matchers specialised to those two patterns.
-/

/-! ## JavaScript string primitives -/

/-- Whitespace per JavaScript's `\s` class and `String.prototype.trim`:
tab, LF, VT, FF, CR, space, NBSP, Ogham space mark, the U+2000–U+200A range,
LS, PS, NNBSP, MMSP, ideographic space and BOM. -/
def isJsWS (c : Char) : Bool :=
  let n := c.toNat
  n == 32 || n == 9 || n == 10 || n == 11 || n == 12 || n == 13 ||
  n == 0xA0 || n == 0x1680 || (0x2000 ≤ n && n ≤ 0x200A) ||
  n == 0x2028 || n == 0x2029 || n == 0x202F || n == 0x205F ||
  n == 0x3000 || n == 0xFEFF

/-- Line terminators per ECMA-262 (the characters `.` does not match in a
regex without the `s` flag): LF, CR, LS, PS. -/
def isLineTerm (c : Char) : Bool :=
  c == '\n' || c == '\r' || c.toNat == 0x2028 || c.toNat == 0x2029

/-- Model of JavaScript `String.prototype.trim` on a character list. -/
def jsTrim (l : List Char) : List Char :=
  ((l.dropWhile isJsWS).reverse.dropWhile isJsWS).reverse

/-- Case-insensitive literal prefix test: does `s` start with the pattern
`pat` (given in lowercase), comparing via `Char.toLower`?  This is how the
`i` flag treats the literal parts of the two source regexes. -/
def startsWithCI : List Char → List Char → Bool
  | [], _ => true
  | _ :: _, [] => false
  | p :: ps, c :: cs => (c.toLower == p) && startsWithCI ps cs

/-- The literal part of `/SUBJECT:\s*(.+?)(?:\n|$)/i`, lowercased. -/
def subjectPat : List Char := ['s', 'u', 'b', 'j', 'e', 'c', 't', ':']

/-- The literal part of `/BODY:\s*([\s\S]+)/i`, lowercased. -/
def bodyPat : List Char := ['b', 'o', 'd', 'y', ':']

/-- The group `(.+?)(?:\n|$)` of the SUBJECT regex, tried at a fixed start
position: the lazily-shortest nonempty run of non-line-terminator characters
whose successor is `\n` or the end of input.  Since every character before
the first line terminator must be inside the group, the only candidate is the
maximal such run; it succeeds exactly when the character following it is `\n`
or the input ends there. -/
def tryGroupSubject (r : List Char) : Option (List Char) :=
  match r with
  | [] => none
  | c :: _ =>
    if isLineTerm c then none
    else
      let run := r.takeWhile (fun x => !isLineTerm x)
      match r.drop run.length with
      | [] => some run
      | b :: _ => if b == '\n' then some run else none

/-- The tail `\s*(.+?)(?:\n|$)` of the SUBJECT regex at a fixed start
position.  `\s*` is greedy, so the matcher first consumes the whitespace
character and recurses, and only on failure backtracks to start the capture
group at that character. -/
def matchTailSubject : List Char → Option (List Char)
  | [] => none
  | c :: cs =>
    if isJsWS c then
      match matchTailSubject cs with
      | some g => some g
      | none => tryGroupSubject (c :: cs)
    else tryGroupSubject (c :: cs)

/-- The tail `\s*([\s\S]+)` of the BODY regex at a fixed start position:
greedy whitespace, then a nonempty capture of everything remaining, with the
same one-character backtrack when the remainder after the whitespace run is
empty. -/
def matchTailBody : List Char → Option (List Char)
  | [] => none
  | c :: cs =>
    if isJsWS c then
      match matchTailBody cs with
      | some g => some g
      | none => some (c :: cs)
    else some (c :: cs)

/-- JavaScript regex scan: try the pattern at each start position from the
left; at a given position the literal marker must match case-insensitively
and then the tail matcher must succeed, otherwise the scan moves one
character to the right (this mirrors `String.prototype.match` with a
non-global regex, which returns the first successful match). -/
def scanCapture (pat : List Char) (tail : List Char → Option (List Char)) :
    List Char → Option (List Char)
  | [] => none
  | c :: cs =>
    if startsWithCI pat (c :: cs) then
      match tail (List.drop pat.length (c :: cs)) with
      | some g => some g
      | none => scanCapture pat tail cs
    else scanCapture pat tail cs

/-- Capture group of `generatedContent.match(/SUBJECT:\s*(.+?)(?:\n|$)/i)`
(generate-newsletter.ts line 129). -/
def subjectMatch (s : List Char) : Option (List Char) :=
  scanCapture subjectPat matchTailSubject s

/-- Capture group of `generatedContent.match(/BODY:\s*([\s\S]+)/i)`
(generate-newsletter.ts line 130). -/
def bodyMatch (s : List Char) : Option (List Char) :=
  scanCapture bodyPat matchTailBody s

/-! ## SHA-256 (FIPS 180-4)

Model of Node's `createHash('sha256').update(s).digest('hex')`, used by both
`FetchNewsUseCase.generateUrlHash` and
`ProcessNewsEmbeddingsUseCase.generateUniqueVectorId`.  32-bit words are
`Nat`s kept below `2 ^ 32` by explicit masking. -/

/-- Truncate to a 32-bit word. -/
def w32 (n : Nat) : Nat := n % 4294967296

/-- 32-bit rotate right. -/
def rotr32 (k x : Nat) : Nat := w32 ((x >>> k) ||| (x <<< (32 - k)))

/-- 32-bit bitwise complement. -/
def not32 (x : Nat) : Nat := x ^^^ 4294967295

/-- UTF-8 bytes of one code point (Node hashes the UTF-8 encoding of the
string passed to `update`). -/
def utf8Char (c : Char) : List Nat :=
  let n := c.toNat
  if n < 0x80 then [n]
  else if n < 0x800 then
    [0xC0 ||| (n >>> 6), 0x80 ||| (n &&& 0x3F)]
  else if n < 0x10000 then
    [0xE0 ||| (n >>> 12), 0x80 ||| ((n >>> 6) &&& 0x3F), 0x80 ||| (n &&& 0x3F)]
  else
    [0xF0 ||| (n >>> 18), 0x80 ||| ((n >>> 12) &&& 0x3F),
     0x80 ||| ((n >>> 6) &&& 0x3F), 0x80 ||| (n &&& 0x3F)]

/-- UTF-8 encoding of a string, as a byte list. -/
def utf8Bytes (s : String) : List Nat := s.data.flatMap utf8Char

/-- Big-endian bytes of `n`, `count` bytes wide. -/
def bytesBE (count n : Nat) : List Nat :=
  (List.range count).map (fun i => (n >>> (8 * (count - 1 - i))) % 256)

/-- SHA-256 message padding: append `0x80`, zero bytes up to 56 mod 64, then
the bit length as a 64-bit big-endian integer. -/
def sha256pad (msg : List Nat) : List Nat :=
  let l := msg.length
  let k := (64 + 56 - (l + 1) % 64) % 64
  msg ++ [0x80] ++ List.replicate k 0 ++ bytesBE 8 (8 * l)

/-- Split a list into chunks of `n + 1` elements; the fuel argument (always
instantiated with the list length, which bounds the number of chunks) keeps
the recursion structural so that the definition evaluates inside the
kernel. -/
def chunksAux (n : Nat) : Nat → List Nat → List (List Nat)
  | _, [] => []
  | 0, _ :: _ => []
  | fuel + 1, x :: xs =>
    (x :: xs).take (n + 1) :: chunksAux n fuel ((x :: xs).drop (n + 1))

/-- Split a list into chunks of `n + 1` elements. -/
def chunks (n : Nat) (l : List Nat) : List (List Nat) := chunksAux n l.length l

/-- Fold 4 big-endian bytes into a word. -/
def word4 (bs : List Nat) : Nat :=
  bs.foldl (fun acc b => acc * 256 + b) 0

/-- The 64 SHA-256 round constants. -/
def shaK : List Nat :=
  [0x428A2F98, 0x71374491, 0xB5C0FBCF, 0xE9B5DBA5,
   0x3956C25B, 0x59F111F1, 0x923F82A4, 0xAB1C5ED5,
   0xD807AA98, 0x12835B01, 0x243185BE, 0x550C7DC3,
   0x72BE5D74, 0x80DEB1FE, 0x9BDC06A7, 0xC19BF174,
   0xE49B69C1, 0xEFBE4786, 0x0FC19DC6, 0x240CA1CC,
   0x2DE92C6F, 0x4A7484AA, 0x5CB0A9DC, 0x76F988DA,
   0x983E5152, 0xA831C66D, 0xB00327C8, 0xBF597FC7,
   0xC6E00BF3, 0xD5A79147, 0x06CA6351, 0x14292967,
   0x27B70A85, 0x2E1B2138, 0x4D2C6DFC, 0x53380D13,
   0x650A7354, 0x766A0ABB, 0x81C2C92E, 0x92722C85,
   0xA2BFE8A1, 0xA81A664B, 0xC24B8B70, 0xC76C51A3,
   0xD192E819, 0xD6990624, 0xF40E3585, 0x106AA070,
   0x19A4C116, 0x1E376C08, 0x2748774C, 0x34B0BCB5,
   0x391C0CB3, 0x4ED8AA4A, 0x5B9CCA4F, 0x682E6FF3,
   0x748F82EE, 0x78A5636F, 0x84C87814, 0x8CC70208,
   0x90BEFFFA, 0xA4506CEB, 0xBEF9A3F7, 0xC67178F2]

/-- Initial SHA-256 state. -/
def shaH0 : List Nat :=
  [0x6A09E667, 0xBB67AE85, 0x3C6EF372, 0xA54FF53A,
   0x510E527F, 0x9B05688C, 0x1F83D9AB, 0x5BE0CD19]

/-- Message-schedule extension step: `w[i] = σ1 w[i-2] + w[i-7] + σ0 w[i-15]
+ w[i-16]` over the last 16 words, oldest first. -/
def shaExtendStep (last16 : List Nat) : Nat :=
  match last16 with
  | [w0, w1, _, _, _, _, _, _, _, w9, _, _, _, _, w14, _] =>
    let s0 := (rotr32 7 w1) ^^^ (rotr32 18 w1) ^^^ (w1 >>> 3)
    let s1 := (rotr32 17 w14) ^^^ (rotr32 19 w14) ^^^ (w14 >>> 10)
    w32 (w0 + s0 + w9 + s1)
  | _ => 0

/-- Extend the 16 block words to the 64-word schedule. -/
def shaSchedule (ws : List Nat) (rounds : Nat) : List Nat :=
  match rounds with
  | 0 => ws
  | n + 1 =>
    let next := shaExtendStep (ws.drop (ws.length - 16))
    shaSchedule (ws ++ [next]) n

/-- One compression round: state is `[a,b,c,d,e,f,g,h]`, `kw` is `k[i]+w[i]`
pre-added. -/
def shaRound (st : List Nat) (k w : Nat) : List Nat :=
  match st with
  | [a, b, c, d, e, f, g, h] =>
    let s1 := (rotr32 6 e) ^^^ (rotr32 11 e) ^^^ (rotr32 25 e)
    let ch := (e &&& f) ^^^ ((not32 e) &&& g)
    let t1 := w32 (h + s1 + ch + k + w)
    let s0 := (rotr32 2 a) ^^^ (rotr32 13 a) ^^^ (rotr32 22 a)
    let mj := (a &&& b) ^^^ (a &&& c) ^^^ (b &&& c)
    let t2 := w32 (s0 + mj)
    [w32 (t1 + t2), a, b, c, w32 (d + t1), e, f, g]
  | _ => st

/-- Compress one 64-byte block into the running state. -/
def shaBlock (st : List Nat) (block : List Nat) : List Nat :=
  let ws := shaSchedule ((chunks 3 block).map word4) 48
  let fin := (shaK.zip ws).foldl (fun s kw => shaRound s kw.1 kw.2) st
  (st.zip fin).map (fun p => w32 (p.1 + p.2))

/-- Lowercase hex digit. -/
def hexChar (n : Nat) : Char :=
  if n < 10 then Char.ofNat (48 + n) else Char.ofNat (87 + n)

/-- A 32-bit word as 8 lowercase hex characters. -/
def wordHex (w : Nat) : List Char :=
  (List.range 8).map (fun i => hexChar ((w >>> (4 * (7 - i))) % 16))

/-- Hex digest of SHA-256 of the UTF-8 encoding of `s`, i.e. Node's
`createHash('sha256').update(s).digest('hex')`. -/
def sha256hex (s : String) : String :=
  let blocks := chunks 63 (sha256pad (utf8Bytes s))
  let final := blocks.foldl shaBlock shaH0
  String.mk (final.flatMap wordHex)

/-! ## Data model

`NewsArticle` mirrors the DTO in `news-api-dto.ts`; nullable fields are
`Option`. -/

/-- The `source` sub-object of a news article. -/
structure NewsSource where
  id : Option String
  name : String
  deriving Repr, DecidableEq

/-- A document fetched from the news API (`NewsArticle` in
`news-api-dto.ts`).  The embedding pipeline accesses `source` through the
optional-chaining `article.source?.name`, so `source` is modelled as
optional here. -/
structure NewsArticle where
  source : Option NewsSource
  author : Option String
  title : String
  description : Option String
  url : String
  urlToImage : Option String
  publishedAt : String
  content : Option String
  deriving Repr, DecidableEq

/-- JavaScript template-literal interpolation of a possibly-null string
(`${article.description}` renders `null` as the text `"null"`). -/
def jsInterp : Option String → String
  | none => "null"
  | some s => s

/-- JavaScript `x || ''`: `null`/`undefined` (and the falsy `""`) become
`""`. -/
def jsOrEmpty : Option String → String
  | none => ""
  | some s => s

/-- JavaScript `a || b || ''` for the metadata `content` field
(`article.content || article.description || ''`): the first operand that is
neither null nor the empty string. -/
def firstTruthy (a b : Option String) : String
  := match a with
  | some s => if s = "" then (match b with
      | some t => t
      | none => "") else s
  | none => match b with
    | some t => t
    | none => ""

/-- JavaScript `article.source?.name || 'Unknown'`. -/
def sourceNameOrUnknown : Option NewsSource → String
  | none => "Unknown"
  | some s => if s.name = "" then "Unknown" else s.name

/-- A record upserted into the vector index (`VectorRecord` /  the `Vector`
type in process-news-embeddings.ts).  The metadata object literal is
modelled as an association list so that "which keys exist" is a statement
the model can make. -/
structure VectorRecord where
  id : String
  values : List Float
  metadata : List (String × String)
  deriving Repr

/-! ## Embedding pipeline (`ProcessNewsEmbeddingsUseCase`)

The embedding provider is an environment
`env : Nat → Nat → String → Except String (List Float)`:
`env i k t` is the outcome of attempt `k` (1-based) of the embedding call
for the article at global index `i` with input text `t`; `.error e` models
a thrown `Error` with message `e`. -/

/-- Embedding-provider environment. -/
abbrev EmbedEnv := Nat → Nat → String → Except String (List Float)

/-- `ProcessNewsEmbeddingsUseCase.generateUniqueVectorId`: `article-` plus
the first 16 hex characters of the SHA-256 of the article URL. -/
def generateUniqueVectorId (article : NewsArticle) : String :=
  "article-" ++ String.mk ((sha256hex article.url).data.take 16)

/-- `FetchNewsUseCase.generateUrlHash`: first 16 hex characters of the
SHA-256 of the URL. -/
def generateUrlHash (url : String) : String :=
  String.mk ((sha256hex url).data.take 16)

/-- The embedding input text of one article:
`` `${title}\n\n${description}\n\n${content || ''}`.substring(0, 8000) ``. -/
def textToEmbed (article : NewsArticle) : String :=
  String.mk ((article.title ++ "\n\n" ++ jsInterp article.description ++
    "\n\n" ++ jsOrEmpty article.content).data.take 8000)

/-- The retry loop of `generateEmbeddingWithRetry`: attempts are numbered
from `attempt`; a success returns immediately, the error of attempt
`maxRetries` is rethrown, and running out of fuel (never reached from the
entry point) yields the `Max retries exceeded` fallback. -/
def retryAux (f : Nat → Except String (List Float)) (maxRetries : Nat) :
    Nat → Nat → Except String (List Float)
  | _, 0 => Except.error "Max retries exceeded"
  | attempt, fuel + 1 =>
    match f attempt with
    | Except.ok v => Except.ok v
    | Except.error e =>
      if attempt == maxRetries then Except.error e
      else retryAux f maxRetries (attempt + 1) fuel

/-- `ProcessNewsEmbeddingsUseCase.generateEmbeddingWithRetry`. -/
def generateEmbeddingWithRetry (f : Nat → Except String (List Float))
    (maxRetries : Nat) : Except String (List Float) :=
  retryAux f maxRetries 1 maxRetries

/-- Vector metadata constructed for one article
(process-news-embeddings.ts lines 90–96): exactly the keys `title`, `url`,
`publishedAt`, `source` and `content`. -/
def vectorMetadata (article : NewsArticle) : List (String × String) :=
  [("title", article.title),
   ("url", article.url),
   ("publishedAt", article.publishedAt),
   ("source", sourceNameOrUnknown article.source),
   ("content", firstTruthy article.content article.description)]

/-- One article's processing inside a concurrency batch (the async closure
at lines 73–106): embed with retry bound 2; on success the vector record,
on failure `none` (the article is dropped). -/
def processOne (env : EmbedEnv) (i : Nat) (article : NewsArticle) :
    Option VectorRecord :=
  match generateEmbeddingWithRetry (fun k => env i k (textToEmbed article)) 2 with
  | Except.ok embeddings =>
    some { id := generateUniqueVectorId article,
           values := embeddings,
           metadata := vectorMetadata article }
  | Except.error _ => none

/-- Settled results of one concurrency batch, collected in batch order
(the `batchResults.forEach` push loop): fulfilled non-null values survive. -/
def procBatch (env : EmbedEnv) : List NewsArticle → Nat → List VectorRecord
  | [], _ => []
  | a :: rest, i => (processOne env i a).toList ++ procBatch env rest (i + 1)

/-- The batching loop of `processArticlesConcurrently`, with a structural
fuel argument (always instantiated with the article count, which bounds the
number of batches). -/
def pacAux (env : EmbedEnv) (c : Nat) : Nat → List NewsArticle → Nat → List VectorRecord
  | _, [], _ => []
  | 0, _ :: _, _ => []
  | fuel + 1, a :: rest, i =>
    procBatch env ((a :: rest).take (c + 1)) i ++
      pacAux env c fuel ((a :: rest).drop (c + 1)) (i + (c + 1))

/-- `processArticlesConcurrently` with concurrency `c + 1`: slice the
article list into concurrency batches, settle each batch fully before the
next, and concatenate the survivors in order.  The source always calls it
with concurrency 2 (`c = 1`). -/
def processArticlesConcurrently (env : EmbedEnv) (c : Nat)
    (articles : List NewsArticle) (i : Nat) : List VectorRecord :=
  pacAux env c articles.length articles i

/-- `ProcessNewsEmbeddingsUseCase.execute`, from the point where the S3
batch has been fetched and validated into an article array.  The returned
pair is (invocation outcome, list of upsert calls made to the vector
repository): at most one upsert, and none when the invocation throws the
`No articles were successfully processed for embeddings` error. -/
def processNewsEmbeddingsExecute (env : EmbedEnv)
    (allArticles : List NewsArticle) :
    Except String Unit × List (List VectorRecord) :=
  let articles := allArticles.take 50
  let vectors := processArticlesConcurrently env 1 articles 0
  if vectors.length = 0 then
    (Except.error "No articles were successfully processed for embeddings", [])
  else
    (Except.ok (), [vectors])

/-! ## Ingestion pipeline (`FetchNewsUseCase`)

The news API response and the current content of the
`processed-urls-cache.json` blob are inputs; the run's observable effect is
the list of `uploadJson` calls it performs.  A missing or unparseable cache
blob is `none` (the `catch` in `getProcessedUrlsCache` turns it into the
empty set). -/

/-- An `uploadJson` call performed by the ingestion run: either the new
batch blob or the rewritten processed-URL cache. -/
inductive UploadCall where
  | articlesUpload (articles : List NewsArticle) (key : String)
  | cacheUpload (hashes : List String)
  deriving Repr, DecidableEq

/-- JavaScript `Set.prototype.add` on the insertion-ordered element list. -/
def jsSetAdd (s : List String) (h : String) : List String :=
  if s.contains h then s else s ++ [h]

/-- Add all elements in order (`articles.forEach(... processedUrls.add ...)`). -/
def jsSetAddAll (s : List String) (hs : List String) : List String :=
  hs.foldl jsSetAdd s

/-- JavaScript `new Set(arr)` as its insertion-ordered element list (first
occurrences, in order). -/
def jsSetFrom (l : List String) : List String := jsSetAddAll [] l

/-- JavaScript `arr.slice(-n)`: the last `n` elements. -/
def lastN (n : Nat) (l : List String) : List String := l.drop (l.length - n)

/-- The cache list written by `updateProcessedUrlsCache`: re-read cache as a
set, add the new articles' URL hashes in order, convert to an array
(insertion order) and trim to the last 10,000 entries. -/
def updatedCacheList (cacheList : List String) (articles : List NewsArticle) :
    List String :=
  lastN 10000
    (jsSetAddAll (jsSetFrom cacheList) (articles.map (fun a => generateUrlHash a.url)))

/-- `FetchNewsUseCase.execute` from the point where the news API has
responded: truncate to `pageSize`, drop articles whose URL hash is in the
cache, and either no-op (zero new) or upload the batch blob and the updated
cache.  The result is the list of uploads performed. -/
def fetchNewsExecute (fetched : List NewsArticle) (cache : Option (List String))
    (pageSize : Nat) (ts : String) : List UploadCall :=
  let limitedArticles := fetched.take pageSize
  let cacheList := cache.getD []
  let processedUrls := jsSetFrom cacheList
  let newArticles := limitedArticles.filter
    (fun a => !(processedUrls.contains (generateUrlHash a.url)))
  if newArticles = [] then []
  else
    [UploadCall.articlesUpload newArticles ("news-" ++ ts ++ ".json"),
     UploadCall.cacheUpload (updatedCacheList cacheList newArticles)]

/-! ## Newsletter orchestrator (`generate-newsletter.ts` handler)

The four collaborator calls (embed topic, vector search, generate,
send email) are an environment of responses, and the run emits a trace of
the outbound calls it actually makes.  `handlerBody` is the `try` block:
its `Except.error` is a thrown error, absorbed by `runHandler`'s `catch`. -/

/-- A similarity search result (`SearchResult` in the vector repository
DTO); metadata may be absent, and is an association list of string
values. -/
structure SearchResult where
  id : String
  score : Float
  metadata : Option (List (String × String))

/-- Request payload of `sendEmailToMultiple`; `toRecipients` models the
DTO's `to` field (`to` is a reserved token in this Lean setup). -/
structure EmailSend where
  toRecipients : List String
  subject : String
  body : String
  isHtml : Bool

/-- Result of `sendEmailToMultiple`. -/
structure EmailSendResult where
  messageId : String
  recipientCount : Nat

/-- One outbound call of the orchestrator run. -/
inductive CallEvent where
  | embedCall (text : String)
  | searchCall (vector : List Float) (topK : Nat) (includeMetadata : Bool)
  | generateCall (prompt : String) (maxTokens : Nat)
  | sendCall (request : EmailSend)

/-- Collaborator responses for one orchestrator run.  `fmtScore` stands for
the JavaScript float formatting `(score * 100).toFixed(1)`, which has no
exact counterpart here and only flows into the prompt text. -/
structure OrchestratorEnv where
  embedTopic : Except String (List Float)
  searchResp : Except String (List SearchResult)
  generateResp : Except String String
  sendResp : Except String EmailSendResult
  fmtScore : Float → String

/-- The orchestrator's input event. -/
structure NewsletterRequest where
  topic : String
  recipients : List String
  maxArticles : Option Nat

/-- The orchestrator's response payload. -/
structure NewsletterResponse where
  success : Bool
  message : String
  articlesFound : Option Nat := none
  emailSent : Option Bool := none
  messageId : Option String := none

/-- `event.maxArticles || 10` (`undefined` and the falsy `0` both give 10). -/
def topKOf : Option Nat → Nat
  | none => 10
  | some n => if n = 0 then 10 else n

/-- Metadata access with JavaScript `||` fallback
(`metadata.title || 'Untitled'` etc.): a missing key or an empty-string
value falls back to the default. -/
def mget (m : List (String × String)) (k d : String) : String :=
  match m.lookup k with
  | none => d
  | some v => if v = "" then d else v

/-- One entry of `articlesContext` (the `searchResults.map` template
literal, lines 88–97).  The literals are split at the `Author:` and
`Description:` line starts; their concatenation is character-for-character
the source template. -/
def renderArticle (fmtScore : Float → String) (index : Nat)
    (result : SearchResult) : String :=
  let metadata := result.metadata.getD []
  "\nArticle " ++ toString (index + 1) ++ ":\nTitle: " ++
    mget metadata "title" "Untitled" ++ "\nSource: " ++
    mget metadata "source" "Unknown" ++ "\n" ++ "Author: " ++
    mget metadata "author" "Unknown" ++ "\nPublished: " ++
    mget metadata "publishedAt" "Unknown date" ++ "\n" ++ "Description: " ++
    mget metadata "description" "No description" ++ "\nURL: " ++
    mget metadata "url" "No URL" ++ "\nRelevance Score: " ++
    fmtScore result.score ++ "%\n"

/-- `articlesContext`: the rendered results joined by `\n---\n`. -/
def articlesContext (fmtScore : Float → String)
    (results : List SearchResult) : String :=
  String.intercalate "\n---\n" (results.mapIdx (fun i r => renderArticle fmtScore i r))

/-- The generation prompt (lines 101–121). -/
def newsletterPrompt (topic : String) (fmtScore : Float → String)
    (results : List SearchResult) : String :=
  "You are an expert newsletter writer. Create an engaging HTML newsletter about \"" ++
  topic ++ "\".\n\nHere are " ++ toString results.length ++
  " relevant articles I found:\n\n" ++ articlesContext fmtScore results ++
  "\n\nInstructions:\n1. Create a professional HTML newsletter with a compelling subject line\n2. Write an engaging introduction about why this topic matters\n3. Summarize the key insights from the articles above\n4. Include article titles as clickable links (use the URLs provided)\n5. Add a brief conclusion\n6. Use clean HTML formatting with proper headings, paragraphs, and styling\n7. Make it readable and visually appealing\n\nFormat your response EXACTLY as:\nSUBJECT: [your subject line here]\nBODY:\n[your HTML content here]\n\nStart your response now:"

/-- The `try` block of the handler: runs the four steps in order, recording
each outbound call before consulting the environment's response; a thrown
error is `Except.error` together with the calls made so far. -/
def handlerBody (env : OrchestratorEnv) (req : NewsletterRequest) :
    Except String NewsletterResponse × List CallEvent :=
  let calls1 : List CallEvent := [CallEvent.embedCall req.topic]
  match env.embedTopic with
  | Except.error e => (Except.error e, calls1)
  | Except.ok queryEmbedding =>
    let calls2 := calls1 ++
      [CallEvent.searchCall queryEmbedding (topKOf req.maxArticles) true]
    match env.searchResp with
    | Except.error e => (Except.error e, calls2)
    | Except.ok searchResults =>
      if searchResults.length = 0 then
        (Except.ok { success := false,
                     message := "No articles found for topic: " ++ req.topic,
                     articlesFound := some 0 }, calls2)
      else
        let prompt := newsletterPrompt req.topic env.fmtScore searchResults
        let calls3 := calls2 ++ [CallEvent.generateCall prompt 4096]
        match env.generateResp with
        | Except.error e => (Except.error e, calls3)
        | Except.ok generatedContent =>
          match subjectMatch generatedContent.data,
                bodyMatch generatedContent.data with
          | some subjectCap, some bodyCap =>
            let subject := String.mk (jsTrim subjectCap)
            let body := String.mk (jsTrim bodyCap)
            let calls4 := calls3 ++
              [CallEvent.sendCall ⟨req.recipients, subject, body, true⟩]
            match env.sendResp with
            | Except.error e => (Except.error e, calls4)
            | Except.ok emailResult =>
              (Except.ok { success := true,
                           message := "Newsletter generated and sent successfully",
                           articlesFound := some searchResults.length,
                           emailSent := some true,
                           messageId := some emailResult.messageId }, calls4)
          | _, _ =>
            (Except.error "Failed to parse generated newsletter content", calls3)

/-- The whole handler: the `try` block plus the top-level `catch`, which
turns any thrown error into the structured failure response.  The handler
is a total function — it always returns a response, never rethrows. -/
def runHandler (env : OrchestratorEnv) (req : NewsletterRequest) :
    NewsletterResponse × List CallEvent :=
  match handlerBody env req with
  | (Except.ok resp, calls) => (resp, calls)
  | (Except.error e, calls) =>
    ({ success := false,
       message := "Failed to generate newsletter: " ++ e,
       emailSent := some false }, calls)

/-- The delivery-client calls in a trace. -/
def sendCalls (calls : List CallEvent) : List EmailSend :=
  calls.filterMap (fun c => match c with
    | CallEvent.sendCall r => some r
    | _ => none)

/-- The generation-client calls in a trace. -/
def generateCalls (calls : List CallEvent) : List String :=
  calls.filterMap (fun c => match c with
    | CallEvent.generateCall p _ => some p
    | _ => none)

/-! ## Concrete fixtures (used by witness theorems) -/

/-- A concrete article. -/
def articleA : NewsArticle :=
  { source := some { id := none, name := "TechCrunch" },
    author := some "Ann Author",
    title := "Title A",
    description := some "Desc A",
    url := "https://example.com/a",
    urlToImage := none,
    publishedAt := "2024-01-01T00:00:00Z",
    content := some "Content A" }

/-- A second concrete article with a different URL. -/
def articleB : NewsArticle :=
  { articleA with title := "Title B", url := "https://example.com/b" }

/-- An embedding environment in which every attempt fails. -/
def envAllFail : EmbedEnv := fun _ _ _ => Except.error "embedding unavailable"

/-- An embedding environment in which article 0 fails on every attempt and
every other article succeeds immediately. -/
def envFailFirst : EmbedEnv := fun i _ _ =>
  if i = 0 then Except.error "embedding unavailable" else Except.ok [0.25]

/-- An embedding environment in which every attempt succeeds. -/
def envAllOk : EmbedEnv := fun _ _ _ => Except.ok [0.25]

/-- A trivial stand-in for the score formatter. -/
def fmtZero : Float → String := fun _ => "0.0"

/-- A search result whose metadata is exactly a vector record's metadata. -/
def sampleResult : SearchResult :=
  ⟨generateUniqueVectorId articleA, 0.5, some (vectorMetadata articleA)⟩

/-- Orchestrator environment: the index has no matches. -/
def envSearchEmpty : OrchestratorEnv :=
  ⟨Except.ok [0.1], Except.ok [], Except.ok "unused",
   Except.ok ⟨"mid-1", 1⟩, fmtZero⟩

/-- Orchestrator environment: generation output lacks both markers. -/
def envParseFail : OrchestratorEnv :=
  ⟨Except.ok [0.1], Except.ok [sampleResult], Except.ok "no markers here",
   Except.ok ⟨"mid-1", 1⟩, fmtZero⟩

/-- Orchestrator environment: generation output in the literal §6 format. -/
def envRoundTrip : OrchestratorEnv :=
  ⟨Except.ok [0.1], Except.ok [sampleResult],
   Except.ok "SUBJECT: Foo\nBODY:\n<p>Bar</p>",
   Except.ok ⟨"mid-1", 1⟩, fmtZero⟩

/-- Orchestrator environment: the topic-embedding call throws. -/
def envEmbedThrow : OrchestratorEnv :=
  ⟨Except.error "Bedrock timeout", Except.ok [], Except.ok "x",
   Except.ok ⟨"m", 1⟩, fmtZero⟩

/-- A sample orchestrator request. -/
def reqSample : NewsletterRequest :=
  ⟨"Artificial Intelligence", ["a@example.com"], none⟩

/-- The vector record produced for `articleA` with embedding `[0.25]`
(`2dce0a4c50441bfc` is the first 16 hex characters of the SHA-256 of
`https://example.com/a`). -/
def recordA : VectorRecord :=
  { id := "article-2dce0a4c50441bfc",
    values := [0.25],
    metadata := [("title", "Title A"),
                 ("url", "https://example.com/a"),
                 ("publishedAt", "2024-01-01T00:00:00Z"),
                 ("source", "TechCrunch"),
                 ("content", "Content A")] }

/-! ## Helper lemmas -/

/-- Settling a concurrency batch distributes over append, shifting the
global index by the first part's length. -/
theorem procBatch_append (env : EmbedEnv) (xs ys : List NewsArticle) :
    ∀ i, procBatch env (xs ++ ys) i =
      procBatch env xs i ++ procBatch env ys (i + xs.length) := by
  induction xs with
  | nil => intro i; simp [procBatch]
  | cons a rest ih =>
    intro i
    simp only [List.cons_append, procBatch, List.length_cons, List.append_eq]
    rw [ih (i + 1), List.append_assoc]
    congr 3
    omega

/-- With enough fuel the batching loop is the one-by-one pass: concurrency
batching is a pure scheduling artifact. -/
theorem pacAux_eq_procBatch (env : EmbedEnv) (c : Nat) :
    ∀ (n : Nat) (arts : List NewsArticle), arts.length ≤ n → ∀ i,
      pacAux env c n arts i = procBatch env arts i := by
  intro n
  induction n with
  | zero =>
    intro arts h i
    have : arts = [] := List.length_eq_zero.mp (Nat.le_zero.mp h)
    subst this
    simp [pacAux, procBatch]
  | succ n ih =>
    intro arts h i
    match arts with
    | [] => simp [pacAux, procBatch]
    | a :: rest =>
      rw [pacAux]
      by_cases hlen : (a :: rest).length ≤ c + 1
      · rw [List.take_of_length_le hlen, List.drop_eq_nil_of_le hlen]
        have : rest.length ≤ n := by
          simp only [List.length_cons] at h; omega
        simp [pacAux]
      · have hdrop : ((a :: rest).drop (c + 1)).length ≤ n := by
          simp only [List.length_drop]
          simp only [List.length_cons] at h ⊢
          omega
        rw [ih _ hdrop]
        have := procBatch_append env ((a :: rest).take (c + 1))
          ((a :: rest).drop (c + 1)) i
        rw [List.take_append_drop] at this
        rw [this, List.length_take]
        congr 2
        omega

/-- The collected survivors are those of processing the articles one by one
in order. -/
theorem processArticlesConcurrently_eq (env : EmbedEnv) (c : Nat)
    (arts : List NewsArticle) (i : Nat) :
    processArticlesConcurrently env c arts i = procBatch env arts i :=
  pacAux_eq_procBatch env c arts.length arts le_rfl i

/-- If attempts 1 and 2 both fail, the bounded retry (max 2 attempts)
rethrows the second error — the loop never makes a third attempt. -/
theorem generateEmbeddingWithRetry_two_errors
    (f : Nat → Except String (List Float))
    (e1 e2 : String) (h1 : f 1 = Except.error e1) (h2 : f 2 = Except.error e2) :
    generateEmbeddingWithRetry f 2 = Except.error e2 := by
  simp [generateEmbeddingWithRetry, retryAux, h1, h2]

/-- If the first attempt succeeds, the retry returns it. -/
theorem generateEmbeddingWithRetry_first_ok
    (f : Nat → Except String (List Float)) (v : List Float)
    (h : f 1 = Except.ok v) : generateEmbeddingWithRetry f 2 = Except.ok v := by
  simp [generateEmbeddingWithRetry, retryAux, h]

/-- An article whose embedding fails on both attempts is dropped. -/
theorem processOne_none_of_fail (env : EmbedEnv) (i : Nat) (a : NewsArticle)
    (h : ∀ k t, ∃ e, env i k t = Except.error e) :
    processOne env i a = none := by
  obtain ⟨e1, h1⟩ := h 1 (textToEmbed a)
  obtain ⟨e2, h2⟩ := h 2 (textToEmbed a)
  simp [processOne,
    generateEmbeddingWithRetry_two_errors (fun k => env i k (textToEmbed a)) e1 e2 h1 h2]

/-- An article whose first embedding attempt succeeds survives. -/
theorem processOne_isSome_of_ok (env : EmbedEnv) (i : Nat) (a : NewsArticle)
    (h : ∀ t, ∃ v, env i 1 t = Except.ok v) :
    (processOne env i a).isSome = true := by
  obtain ⟨v, hv⟩ := h (textToEmbed a)
  simp [processOne,
    generateEmbeddingWithRetry_first_ok (fun k => env i k (textToEmbed a)) v hv]

/-- When every article is dropped, the batch survivor list is empty. -/
theorem procBatch_nil_of_none (env : EmbedEnv)
    (h : ∀ i a, processOne env i a = none) :
    ∀ (arts : List NewsArticle) (i : Nat), procBatch env arts i = [] := by
  intro arts
  induction arts with
  | nil => intro i; simp [procBatch]
  | cons a rest ih => intro i; simp [procBatch, h, ih]

/-- C3. All-fail case of the embedding pipeline: when every embedding
attempt for every article fails, the invocation rejects with the explicit
`No articles were successfully processed for embeddings` error and performs
no upsert call (second component `[]`), leaving the index untouched. -/
theorem allFail_throws_and_no_upsert (env : EmbedEnv)
    (arts : List NewsArticle)
    (h : ∀ i k t, ∃ e, env i k t = Except.error e) :
    processNewsEmbeddingsExecute env arts =
      (Except.error "No articles were successfully processed for embeddings",
       []) := by
  have hnone : ∀ i a, processOne env i a = none := fun i a =>
    processOne_none_of_fail env i a (h i)
  simp [processNewsEmbeddingsExecute, processArticlesConcurrently_eq,
    procBatch_nil_of_none env hnone]

/-- Witness for C3: the all-fail environment on a concrete one-article
batch takes the error branch and records no upsert. -/
theorem allFail_throws_and_no_upsert_witness :
    processNewsEmbeddingsExecute envAllFail [articleA] =
      (Except.error "No articles were successfully processed for embeddings",
       []) :=
  allFail_throws_and_no_upsert envAllFail [articleA]
    (fun _ _ _ => ⟨"embedding unavailable", rfl⟩)

/-- C5. Whenever any step inside the orchestrator's `try` block throws
(embedding the topic, vector search, generation, output parsing, or
delivery — every throw site of `handlerBody` ends in its `Except.error`),
the top-level catch returns a structured failure: `success = false` and a
message carrying the human-readable cause string appended to the fixed
`Failed to generate newsletter: ` prefix.  `runHandler` is a total
function, so no error propagates to the caller. -/
theorem catch_returns_structured_failure (env : OrchestratorEnv)
    (req : NewsletterRequest) (e : String) (calls : List CallEvent)
    (h : handlerBody env req = (Except.error e, calls)) :
    (runHandler env req).1.success = false ∧
      (runHandler env req).1.message = "Failed to generate newsletter: " ++ e := by
  simp [runHandler, h]

/-- Witness for C5: a concrete run whose topic-embedding call throws
`Bedrock timeout` yields the structured failure with that cause. -/
theorem catch_returns_structured_failure_witness :
    (runHandler envEmbedThrow reqSample).1.success = false ∧
      (runHandler envEmbedThrow reqSample).1.message =
        "Failed to generate newsletter: " ++ "Bedrock timeout" :=
  catch_returns_structured_failure envEmbedThrow reqSample "Bedrock timeout"
    [CallEvent.embedCall "Artificial Intelligence"] rfl

/-- C2. Empty search result: when the topic embedding succeeds and the
similarity search returns zero results, the orchestrator returns
`success = false` with `articlesFound = 0` (the explicit "no articles
found" outcome), and the call trace contains no generation call and no
delivery call. -/
theorem emptySearch_no_generate_no_send (env : OrchestratorEnv)
    (req : NewsletterRequest) (emb : List Float)
    (hE : env.embedTopic = Except.ok emb)
    (hS : env.searchResp = Except.ok []) :
    (runHandler env req).1.success = false ∧
      (runHandler env req).1.articlesFound = some 0 ∧
      (runHandler env req).1.message =
        "No articles found for topic: " ++ req.topic ∧
      generateCalls (runHandler env req).2 = [] ∧
      sendCalls (runHandler env req).2 = [] := by
  simp [runHandler, handlerBody, hE, hS, generateCalls, sendCalls]

/-- Witness for C2: concrete empty-index environment. -/
theorem emptySearch_no_generate_no_send_witness :
    (runHandler envSearchEmpty reqSample).1.success = false ∧
      (runHandler envSearchEmpty reqSample).1.articlesFound = some 0 ∧
      (runHandler envSearchEmpty reqSample).1.message =
        "No articles found for topic: " ++ reqSample.topic ∧
      generateCalls (runHandler envSearchEmpty reqSample).2 = [] ∧
      sendCalls (runHandler envSearchEmpty reqSample).2 = [] :=
  emptySearch_no_generate_no_send envSearchEmpty reqSample [0.1] rfl rfl

/-- A surviving record's id is `generateUniqueVectorId` of its article. -/
theorem processOne_id (env : EmbedEnv) (i : Nat) (a : NewsArticle)
    (r : VectorRecord) (h : processOne env i a = some r) :
    r.id = generateUniqueVectorId a := by
  unfold processOne at h
  cases hE : generateEmbeddingWithRetry (fun k => env i k (textToEmbed a)) 2 with
  | ok v => rw [hE] at h; cases h; rfl
  | error e => rw [hE] at h; cases h

/-- C7. Deterministic vector id: every record the embedding pipeline
produces has id `article-` followed by the first 16 hex characters of the
SHA-256 of the document URL — a function of the URL alone — so two
surviving records for documents with the same URL have the same id no
matter which batch position (`i`, `i'`) or environment produced them. -/
theorem vectorId_deterministic_from_url (env env' : EmbedEnv) (i i' : Nat)
    (a a' : NewsArticle) (r r' : VectorRecord)
    (h : processOne env i a = some r) (h' : processOne env' i' a' = some r')
    (hurl : a.url = a'.url) :
    r.id = "article-" ++ String.mk ((sha256hex a.url).data.take 16) ∧
      r.id = r'.id := by
  have e1 := processOne_id env i a r h
  have e2 := processOne_id env' i' a' r' h'
  constructor
  · rw [e1]; rfl
  · rw [e1, e2]; simp [generateUniqueVectorId, hurl]

/-- Witness for C7: the same article, processed at two different batch
positions, yields the same concrete id `article-2dce0a4c50441bfc`. -/
theorem vectorId_deterministic_from_url_witness :
    recordA.id = "article-" ++
        String.mk ((sha256hex articleA.url).data.take 16) ∧
      recordA.id = recordA.id :=
  vectorId_deterministic_from_url envAllOk envAllOk 3 7 articleA articleA
    recordA recordA (by rfl) (by rfl) rfl

/-- Membership after a JavaScript `Set.add`. -/
theorem jsSetAdd_mem (s : List String) (h x : String) :
    x ∈ jsSetAdd s h ↔ (x ∈ s ∨ x = h) := by
  unfold jsSetAdd
  by_cases hc : s.contains h
  · rw [if_pos hc]
    simp only [List.elem_iff] at hc
    constructor
    · exact Or.inl
    · rintro (hx | rfl)
      · exact hx
      · exact hc
  · rw [if_neg hc]
    simp [List.mem_append]

/-- Membership after adding a batch of elements. -/
theorem jsSetAddAll_mem (hs : List String) :
    ∀ (s : List String) (x : String),
      x ∈ jsSetAddAll s hs ↔ (x ∈ s ∨ x ∈ hs) := by
  induction hs with
  | nil => intro s x; simp [jsSetAddAll]
  | cons h t ih =>
    intro s x
    simp only [jsSetAddAll, List.foldl_cons] at *
    rw [ih (jsSetAdd s h) x, jsSetAdd_mem]
    simp only [List.mem_cons]
    tauto

/-- `new Set(arr)` has the same members as `arr`. -/
theorem jsSetFrom_mem (l : List String) (x : String) :
    x ∈ jsSetFrom l ↔ x ∈ l := by
  simp [jsSetFrom, jsSetAddAll_mem]

/-- The written cache never exceeds the 10,000-entry cap. -/
theorem updatedCacheList_length_le (cl : List String)
    (arts : List NewsArticle) : (updatedCacheList cl arts).length ≤ 10000 := by
  simp only [updatedCacheList, lastN, List.length_drop]
  omega

/-- The written cache is a suffix of the full insertion-ordered updated
set: what is dropped is an oldest-first prefix, so the most recently added
entries are retained. -/
theorem updatedCacheList_suffix (cl : List String) (arts : List NewsArticle) :
    ∃ pre, pre ++ updatedCacheList cl arts =
      jsSetAddAll (jsSetFrom cl) (arts.map (fun a => generateUrlHash a.url)) := by
  refine ⟨(jsSetAddAll (jsSetFrom cl)
    (arts.map (fun a => generateUrlHash a.url))).take
      ((jsSetAddAll (jsSetFrom cl)
        (arts.map (fun a => generateUrlHash a.url))).length - 10000), ?_⟩
  simp [updatedCacheList, lastN, List.take_append_drop]

/-- C9. Cache cap: every cache blob written back by an ingestion run has at
most 10,000 entries, and it is a suffix of the full insertion-ordered
updated cache (old entries first, newly added hashes appended at the end),
i.e. the trim drops oldest entries first and retains the most recently
added ones. -/
theorem cacheWrite_capped_and_recent (fetched : List NewsArticle)
    (cache : Option (List String)) (pageSize : Nat) (ts : String)
    (l : List String)
    (h : UploadCall.cacheUpload l ∈ fetchNewsExecute fetched cache pageSize ts) :
    l.length ≤ 10000 ∧
      ∃ pre, pre ++ l =
        jsSetAddAll (jsSetFrom (cache.getD []))
          (((fetched.take pageSize).filter
            (fun a => !((jsSetFrom (cache.getD [])).contains
              (generateUrlHash a.url)))).map
            (fun a => generateUrlHash a.url)) := by
  have hEq : fetchNewsExecute fetched cache pageSize ts =
      (if ((fetched.take pageSize).filter
          (fun a => !((jsSetFrom (cache.getD [])).contains
            (generateUrlHash a.url)))) = [] then ([] : List UploadCall)
       else
        [UploadCall.articlesUpload
          ((fetched.take pageSize).filter
            (fun a => !((jsSetFrom (cache.getD [])).contains
              (generateUrlHash a.url)))) ("news-" ++ ts ++ ".json"),
         UploadCall.cacheUpload
          (updatedCacheList (cache.getD [])
            ((fetched.take pageSize).filter
              (fun a => !((jsSetFrom (cache.getD [])).contains
                (generateUrlHash a.url)))))]) := rfl
  rw [hEq] at h
  by_cases hnil : ((fetched.take pageSize).filter
      (fun a => !((jsSetFrom (cache.getD [])).contains
        (generateUrlHash a.url)))) = []
  · rw [if_pos hnil] at h
    exact absurd h (List.not_mem_nil _)
  · rw [if_neg hnil] at h
    simp only [List.mem_cons, List.not_mem_nil, or_false] at h
    rcases h with h | h
    · cases h
    · injection h with h2
      rw [h2]
      exact ⟨updatedCacheList_length_le _ _, updatedCacheList_suffix _ _⟩

/-- Witness for C9: a concrete run whose cache blob is written; its payload
obeys the cap and suffix properties. -/
theorem cacheWrite_capped_and_recent_witness :
    ["h1", "2dce0a4c50441bfc"].length ≤ 10000 ∧
      ∃ pre, pre ++ ["h1", "2dce0a4c50441bfc"] =
        jsSetAddAll (jsSetFrom ((some ["h1"] : Option (List String)).getD []))
          ((([articleA].take 10).filter
            (fun a => !((jsSetFrom ((some ["h1"] : Option (List String)).getD [])).contains
              (generateUrlHash a.url)))).map
            (fun a => generateUrlHash a.url)) :=
  cacheWrite_capped_and_recent [articleA] (some ["h1"]) 10 "1700000000000"
    ["h1", "2dce0a4c50441bfc"] (by decide)

/-- C8. Dedup idempotence: an ingestion run over documents whose URL hashes
are all already in the processed-URL cache performs no upload at all — no
batch blob, no cache rewrite (so the cache blob and its size are
unchanged) — and terminates successfully (the model is a total function
returning the empty effect list). -/
theorem ingest_allCached_noop (fetched : List NewsArticle)
    (cache : Option (List String)) (pageSize : Nat) (ts : String)
    (h : ∀ a ∈ fetched.take pageSize,
      (cache.getD []).contains (generateUrlHash a.url) = true) :
    fetchNewsExecute fetched cache pageSize ts = [] := by
  have hfil : (fetched.take pageSize).filter
      (fun a => !((jsSetFrom (cache.getD [])).contains (generateUrlHash a.url))) = [] := by
    rw [List.filter_eq_nil_iff]
    intro a ha
    have hmem : generateUrlHash a.url ∈ cache.getD [] :=
      List.elem_iff.mp (h a ha)
    simp only [Bool.not_eq_true', Bool.not_eq_true]
    intro hc
    simp only [List.contains] at hc
    rw [List.elem_eq_true_of_mem ((jsSetFrom_mem _ _).mpr hmem)] at hc
    cases hc
  have hEq : fetchNewsExecute fetched cache pageSize ts =
      (if ((fetched.take pageSize).filter
          (fun a => !((jsSetFrom (cache.getD [])).contains
            (generateUrlHash a.url)))) = [] then ([] : List UploadCall)
       else
        [UploadCall.articlesUpload
          ((fetched.take pageSize).filter
            (fun a => !((jsSetFrom (cache.getD [])).contains
              (generateUrlHash a.url)))) ("news-" ++ ts ++ ".json"),
         UploadCall.cacheUpload
          (updatedCacheList (cache.getD [])
            ((fetched.take pageSize).filter
              (fun a => !((jsSetFrom (cache.getD [])).contains
                (generateUrlHash a.url)))))]) := rfl
  rw [hEq, if_pos hfil]

/-- Witness for C8: re-ingesting `articleA` when its URL hash
`2dce0a4c50441bfc` is already cached is an observable no-op. -/
theorem ingest_allCached_noop_witness :
    fetchNewsExecute [articleA] (some ["2dce0a4c50441bfc"]) 10 "1700000000000"
      = [] :=
  ingest_allCached_noop [articleA] (some ["2dce0a4c50441bfc"]) 10
    "1700000000000" (by decide)

/-- C4, counterexample to the claim as stated.  The claim quantifies over
every batch size N; at N = 1 the single document is also the one whose
embedding fails on every attempt, so zero vectors survive and — contrary to
"the invocation completes without throwing" with an upsert of N-1 = 0
vectors — the invocation throws the no-articles error and performs no
upsert at all. -/
theorem onePartialFail_throws_at_single_article :
    processNewsEmbeddingsExecute envFailFirst [articleA] =
      (Except.error "No articles were successfully processed for embeddings",
       []) := by rfl

/-- Survivor count of the one-by-one pass when exactly the article at
global index `j` is dropped and every other index survives. -/
theorem procBatch_length_one_fail (env : EmbedEnv) (j : Nat)
    (hnone : ∀ a, processOne env j a = none)
    (hsome : ∀ i a, i ≠ j → (processOne env i a).isSome = true) :
    ∀ (arts : List NewsArticle) (i : Nat),
      (procBatch env arts i).length =
        arts.length - (if i ≤ j ∧ j < i + arts.length then 1 else 0) := by
  intro arts
  induction arts with
  | nil => intro i; simp [procBatch]
  | cons a rest ih =>
    intro i
    by_cases hij : i = j
    · subst hij
      rw [procBatch, hnone a]
      simp only [Option.toList_none, List.nil_append, List.length_cons]
      rw [ih (i + 1)]
      split_ifs <;> omega
    · obtain ⟨r, hr⟩ := Option.isSome_iff_exists.mp (hsome i a hij)
      rw [procBatch, hr]
      simp only [Option.toList_some, List.singleton_append, List.length_cons]
      rw [ih (i + 1)]
      split_ifs <;> omega

/-- C4, amended.  Partial-failure isolation for batches with at least one
surviving document: for a batch of N documents (2 ≤ N ≤ the 50-article cap)
in which exactly the document at index `j` fails on both retry attempts and
every other document's embedding succeeds, the invocation completes without
throwing and makes exactly one upsert call containing exactly N-1 vectors
(the failing document is dropped; at N = 1 the invocation instead throws,
see the counterexample). -/
theorem onePartialFail_upsert_rest (env : EmbedEnv)
    (arts : List NewsArticle) (j : Nat)
    (hN2 : 2 ≤ arts.length) (hcap : arts.length ≤ 50) (hj : j < arts.length)
    (hfail : ∀ k t, ∃ e, env j k t = Except.error e)
    (hok : ∀ i, i ≠ j → ∀ t, ∃ v, env i 1 t = Except.ok v) :
    ∃ vs, processNewsEmbeddingsExecute env arts = (Except.ok (), [vs]) ∧
      vs.length = arts.length - 1 := by
  have hnone : ∀ a, processOne env j a = none := fun a =>
    processOne_none_of_fail env j a hfail
  have hsome : ∀ i a, i ≠ j → (processOne env i a).isSome = true := fun i a hij =>
    processOne_isSome_of_ok env i a (hok i hij)
  have htake : arts.take 50 = arts := List.take_of_length_le hcap
  have hlen : (processArticlesConcurrently env 1 arts 0).length =
      arts.length - 1 := by
    rw [processArticlesConcurrently_eq,
      procBatch_length_one_fail env j hnone hsome arts 0]
    rw [if_pos ⟨Nat.zero_le _, by omega⟩]
  have hEq : processNewsEmbeddingsExecute env arts =
      (if (processArticlesConcurrently env 1 (arts.take 50) 0).length = 0 then
        (Except.error "No articles were successfully processed for embeddings",
         ([] : List (List VectorRecord)))
       else (Except.ok (), [processArticlesConcurrently env 1 (arts.take 50) 0])) :=
    rfl
  refine ⟨processArticlesConcurrently env 1 arts 0, ?_, hlen⟩
  rw [hEq, htake, if_neg (by rw [hlen]; omega)]

/-- Witness for the amended C4: two articles, the first failing every
attempt, the second succeeding — the run succeeds with a single upsert of
exactly one vector. -/
theorem onePartialFail_upsert_rest_witness :
    ∃ vs, processNewsEmbeddingsExecute envFailFirst [articleA, articleB] =
        (Except.ok (), [vs]) ∧
      vs.length = [articleA, articleB].length - 1 :=
  onePartialFail_upsert_rest envFailFirst [articleA, articleB] 0
    (by decide) (by decide) (by decide)
    (fun _ _ => ⟨"embedding unavailable", rfl⟩)
    (fun i hi _ => ⟨[0.25], by simp [envFailFirst, hi]⟩)

/-- Dropping a while-prefix never lengthens a list. -/
theorem length_dropWhile_le' (p : Char → Bool) (l : List Char) :
    (l.dropWhile p).length ≤ l.length := by
  induction l with
  | nil => simp
  | cons a t ih =>
    rw [List.dropWhile_cons]
    split
    · exact le_trans ih (by simp)
    · simp

/-- A nonempty trimmed character list starts with a non-whitespace
character. -/
theorem head_not_ws_of_trimmed (c : Char) (t : List Char)
    (h : jsTrim (c :: t) = c :: t) : isJsWS c = false := by
  cases hb : isJsWS c with
  | false => rfl
  | true =>
    exfalso
    have h1 : jsTrim (c :: t) =
        ((t.dropWhile isJsWS).reverse.dropWhile isJsWS).reverse := by
      simp [jsTrim, List.dropWhile_cons, hb]
    have hlen : (jsTrim (c :: t)).length ≤ t.length := by
      rw [h1]
      calc ((t.dropWhile isJsWS).reverse.dropWhile isJsWS).reverse.length
          = ((t.dropWhile isJsWS).reverse.dropWhile isJsWS).length := by
            simp
        _ ≤ (t.dropWhile isJsWS).reverse.length :=
            length_dropWhile_le' _ _
        _ = (t.dropWhile isJsWS).length := by simp
        _ ≤ t.length := length_dropWhile_le' _ _
    rw [h] at hlen
    simp only [List.length_cons] at hlen
    omega

/-- `takeWhile` passes over a block of characters that all satisfy the
predicate. -/
theorem takeWhile_append_all {α : Type} (p : α → Bool) (xs ys : List α)
    (h : ∀ x ∈ xs, p x = true) :
    (xs ++ ys).takeWhile p = xs ++ ys.takeWhile p := by
  induction xs with
  | nil => simp
  | cons a t ih =>
    simp only [List.cons_append, List.takeWhile_cons]
    rw [h a (List.mem_cons_self a t)]
    simp only [if_true]
    rw [ih (fun x hx => h x (List.mem_cons_of_mem a hx))]

/-- The SUBJECT capture group at the literal position: for a nonempty run
of non-line-terminator characters followed by `\n`, the group is exactly
that run. -/
theorem tryGroupSubject_literal (rest : List Char) (f : Char)
    (ft : List Char) (hnl : ∀ c ∈ f :: ft, isLineTerm c = false) :
    tryGroupSubject ((f :: ft) ++ '\n' :: rest) = some (f :: ft) := by
  have hrun : ((f :: ft) ++ '\n' :: rest).takeWhile (fun x => !isLineTerm x)
      = f :: ft := by
    rw [takeWhile_append_all (fun x => !isLineTerm x) (f :: ft) ('\n' :: rest)
      (fun x hx => by simp [hnl x hx])]
    rw [List.takeWhile_cons]
    norm_num [show isLineTerm '\n' = true from by decide]
  have hdrop : ((f :: ft) ++ '\n' :: rest).drop (f :: ft).length
      = '\n' :: rest := List.drop_left (f :: ft) ('\n' :: rest)
  simp only [List.cons_append] at hrun hdrop
  simp only [tryGroupSubject, List.cons_append, hrun, hdrop]
  rw [hnl f (List.mem_cons_self f ft)]
  simp

/-- The SUBJECT regex tail at the literal position `" " ++ foo ++ "\n" ++
rest`: the greedy `\s*` eats the space, and the lazy group captures exactly
`foo`. -/
theorem matchTailSubject_literal (foo rest : List Char)
    (hne : foo ≠ []) (htrim : jsTrim foo = foo)
    (hnl : ∀ c ∈ foo, isLineTerm c = false) :
    matchTailSubject (' ' :: (foo ++ '\n' :: rest)) = some foo := by
  have hstep : ∀ l : List Char, matchTailSubject l = some foo →
      matchTailSubject (' ' :: l) = some foo := by
    intro l hl
    simp only [matchTailSubject, hl]
    rw [if_pos (show isJsWS ' ' = true from by decide)]
  apply hstep
  match hfoo : foo, hne with
  | f :: ft, _ =>
    have hws : isJsWS f = false :=
      head_not_ws_of_trimmed f ft (hfoo ▸ htrim)
    have hgrp := tryGroupSubject_literal rest f ft (hfoo ▸ hnl)
    simp only [List.cons_append] at hgrp
    simp only [List.cons_append, List.append_eq, matchTailSubject, hws,
      Bool.false_eq_true, if_false]
    exact hgrp

/-- A scan position where the case-insensitive marker matches and the tail
matcher succeeds produces that capture (first match wins). -/
theorem scanCapture_hit (pat : List Char)
    (tailf : List Char → Option (List Char)) (c : Char) (cs : List Char)
    (g : List Char) (hs : startsWithCI pat (c :: cs) = true)
    (ht : tailf (List.drop pat.length (c :: cs)) = some g) :
    scanCapture pat tailf (c :: cs) = some g := by
  simp only [scanCapture, hs, if_true, ht]

/-- A scan position where the marker does not match is skipped. -/
theorem scanCapture_skip (pat : List Char)
    (tailf : List Char → Option (List Char)) (c : Char) (cs : List Char)
    (h : startsWithCI pat (c :: cs) = false) :
    scanCapture pat tailf (c :: cs) = scanCapture pat tailf cs := by
  simp only [scanCapture, h, Bool.false_eq_true, if_false]

/-- The scan passes over a whole block in which no start position matches
the marker. -/
theorem scanCapture_through (pat : List Char)
    (tailf : List Char → Option (List Char)) :
    ∀ (l rest : List Char),
      (∀ i, i < l.length → startsWithCI pat (l.drop i ++ rest) = false) →
      scanCapture pat tailf (l ++ rest) = scanCapture pat tailf rest := by
  intro l
  induction l with
  | nil => intro rest _; simp
  | cons c t ih =>
    intro rest h
    have h0 : startsWithCI pat (c :: (t ++ rest)) = false := by
      have := h 0 (by simp)
      simpa using this
    rw [List.cons_append, scanCapture_skip pat tailf c (t ++ rest) h0]
    exact ih rest (fun i hi => by
      have := h (i + 1) (by simpa using Nat.succ_lt_succ hi)
      simpa using this)

/-- The BODY regex tail at the literal position `"\n" ++ bar`: the capture
is `bar` itself when `bar` is nonempty and trimmed (the greedy `\s*` eats
the newline), and the backtracked single newline — trimming to the empty
body — when `bar` is empty. -/
theorem matchTailBody_literal (bar : List Char) (htrim : jsTrim bar = bar) :
    ∃ g, matchTailBody ('\n' :: bar) = some g ∧ jsTrim g = bar := by
  cases hbar : bar with
  | nil =>
    refine ⟨['\n'], by decide, by decide⟩
  | cons b bt =>
    have hws : isJsWS b = false :=
      head_not_ws_of_trimmed b bt (hbar ▸ htrim)
    refine ⟨b :: bt, ?_, hbar ▸ htrim⟩
    simp only [matchTailBody, hws, Bool.false_eq_true, if_false]
    rw [if_pos (show isJsWS '\n' = true from by decide)]

/-- `subjectMatch` on the literal §6 output format: the scan hits at
position 0 and captures exactly the (nonempty, trimmed,
line-terminator-free) subject text. -/
theorem subjectMatch_literal (foo bar : List Char)
    (hne : foo ≠ []) (htrim : jsTrim foo = foo)
    (hnl : ∀ c ∈ foo, isLineTerm c = false) :
    subjectMatch ('S' :: 'U' :: 'B' :: 'J' :: 'E' :: 'C' :: 'T' :: ':' :: ' ' ::
        (foo ++ '\n' :: 'B' :: 'O' :: 'D' :: 'Y' :: ':' :: '\n' :: bar)) =
      some foo := by
  unfold subjectMatch
  exact scanCapture_hit subjectPat matchTailSubject 'S' _ foo rfl
    (matchTailSubject_literal foo ('B' :: 'O' :: 'D' :: 'Y' :: ':' :: '\n' :: bar)
      hne htrim hnl)

/-- `bodyMatch` on the literal §6 output format: no start position inside
the `SUBJECT: ` head or the subject text matches `body:` (the latter is the
`hNoBody` hypothesis), so the first hit is the literal `BODY:` marker, and
the trimmed capture is exactly the body text. -/
theorem bodyMatch_literal (foo bar : List Char)
    (hNoBody : ∀ i, i < foo.length →
      startsWithCI bodyPat (foo.drop i ++
        '\n' :: 'B' :: 'O' :: 'D' :: 'Y' :: ':' :: '\n' :: bar) = false)
    (htrim : jsTrim bar = bar) :
    ∃ g, bodyMatch ('S' :: 'U' :: 'B' :: 'J' :: 'E' :: 'C' :: 'T' :: ':' :: ' ' ::
        (foo ++ '\n' :: 'B' :: 'O' :: 'D' :: 'Y' :: ':' :: '\n' :: bar)) =
      some g ∧ jsTrim g = bar := by
  obtain ⟨g, hg, hgt⟩ := matchTailBody_literal bar htrim
  refine ⟨g, ?_, hgt⟩
  unfold bodyMatch
  have e1 : scanCapture bodyPat matchTailBody
      ('S' :: 'U' :: 'B' :: 'J' :: 'E' :: 'C' :: 'T' :: ':' :: ' ' ::
        (foo ++ '\n' :: 'B' :: 'O' :: 'D' :: 'Y' :: ':' :: '\n' :: bar)) =
      scanCapture bodyPat matchTailBody
        (foo ++ '\n' :: 'B' :: 'O' :: 'D' :: 'Y' :: ':' :: '\n' :: bar) := rfl
  rw [e1, scanCapture_through bodyPat matchTailBody foo _ hNoBody]
  have e2 : scanCapture bodyPat matchTailBody
      ('\n' :: 'B' :: 'O' :: 'D' :: 'Y' :: ':' :: '\n' :: bar) =
      scanCapture bodyPat matchTailBody
        ('B' :: 'O' :: 'D' :: 'Y' :: ':' :: '\n' :: bar) := rfl
  rw [e2]
  exact scanCapture_hit bodyPat matchTailBody 'B' _ g rfl hg

/-- `String.mk` then `.data` is the identity on character lists. -/
theorem string_mk_data (l : List Char) : (String.mk l).data = l := rfl

/-- C1. Format parse round-trip: when the search step succeeds with at
least one result and the generation model returns exactly the §6 literal
format `SUBJECT: <foo>\nBODY:\n<bar>` — with `foo` a nonempty, trimmed
subject line free of line terminators and containing no case-insensitive
`body:` occurrence (`hNoBody`), and `bar` trimmed — the orchestrator parses
`subject = foo` (captured up to the newline, markers matched
case-insensitively) and `body = bar` (everything after the `BODY:` line),
and the call trace contains exactly one delivery call, carrying exactly
those values, the request's recipients, and `isHtml = true`. -/
theorem formatRoundTrip_sends_once (env : OrchestratorEnv)
    (req : NewsletterRequest) (emb : List Float)
    (results : List SearchResult) (foo bar : List Char)
    (hE : env.embedTopic = Except.ok emb)
    (hS : env.searchResp = Except.ok results)
    (hres : results ≠ [])
    (hne : foo ≠ []) (htrim : jsTrim foo = foo)
    (hnl : ∀ c ∈ foo, isLineTerm c = false)
    (hNoBody : ∀ i, i < foo.length →
      startsWithCI bodyPat (foo.drop i ++
        '\n' :: 'B' :: 'O' :: 'D' :: 'Y' :: ':' :: '\n' :: bar) = false)
    (hbtrim : jsTrim bar = bar)
    (hG : env.generateResp = Except.ok (String.mk
      ('S' :: 'U' :: 'B' :: 'J' :: 'E' :: 'C' :: 'T' :: ':' :: ' ' ::
        (foo ++ '\n' :: 'B' :: 'O' :: 'D' :: 'Y' :: ':' :: '\n' :: bar)))) :
    sendCalls (runHandler env req).2 =
      [{ toRecipients := req.recipients, subject := String.mk foo,
         body := String.mk bar, isHtml := true }] := by
  have hsm := subjectMatch_literal foo bar hne htrim hnl
  obtain ⟨g, hbm, hgt⟩ := bodyMatch_literal foo bar hNoBody hbtrim
  have hlen : ¬results.length = 0 := fun h0 => hres (List.length_eq_zero.mp h0)
  cases hsr : env.sendResp with
  | ok er =>
    simp only [runHandler, handlerBody, hE, hS, hG, hsr, hlen, if_false,
      string_mk_data, hsm, hbm, hgt, htrim]
    simp [sendCalls]
  | error e =>
    simp only [runHandler, handlerBody, hE, hS, hG, hsr, hlen, if_false,
      string_mk_data, hsm, hbm, hgt, htrim]
    simp [sendCalls]

/-- Witness for C1: the spec's own instance `SUBJECT: Foo\nBODY:\n<p>Bar</p>`
parses to subject `Foo`, body `<p>Bar</p>`, delivered exactly once. -/
theorem formatRoundTrip_sends_once_witness :
    sendCalls (runHandler envRoundTrip reqSample).2 =
      [{ toRecipients := reqSample.recipients,
         subject := String.mk ['F', 'o', 'o'],
         body := String.mk ['<', 'p', '>', 'B', 'a', 'r', '<', '/', 'p', '>'],
         isHtml := true }] :=
  formatRoundTrip_sends_once envRoundTrip reqSample [0.1] [sampleResult]
    ['F', 'o', 'o'] ['<', 'p', '>', 'B', 'a', 'r', '<', '/', 'p', '>']
    rfl rfl (List.cons_ne_nil _ _) (by decide) (by decide) (by decide)
    (by decide) (by decide) (by rfl)

/-- C6. Parse failure surfaced: when search succeeds with at least one
result but the generation output lacks the SUBJECT: marker or the BODY:
marker (its regex match is `none`), the orchestrator returns
`success = false` with the message referencing the parse failure, and the
call trace contains no delivery call. -/
theorem parseFail_no_send (env : OrchestratorEnv) (req : NewsletterRequest)
    (emb : List Float) (results : List SearchResult) (content : String)
    (hE : env.embedTopic = Except.ok emb)
    (hS : env.searchResp = Except.ok results)
    (hres : results ≠ [])
    (hG : env.generateResp = Except.ok content)
    (hparse : subjectMatch content.data = none ∨
      bodyMatch content.data = none) :
    (runHandler env req).1.success = false ∧
      (runHandler env req).1.message =
        "Failed to generate newsletter: Failed to parse generated newsletter content" ∧
      sendCalls (runHandler env req).2 = [] := by
  have hlen : ¬results.length = 0 := fun h0 => hres (List.length_eq_zero.mp h0)
  rcases hparse with hp | hp
  · simp only [runHandler, handlerBody, hE, hS, hG, hlen, if_false, hp]
    simp [sendCalls]
  · cases hsm : subjectMatch content.data with
    | none =>
      simp only [runHandler, handlerBody, hE, hS, hG, hlen, if_false, hsm]
      simp [sendCalls]
    | some sc =>
      simp only [runHandler, handlerBody, hE, hS, hG, hlen, if_false, hsm, hp]
      simp [sendCalls]

/-- Witness for C6: generation output `no markers here` has neither marker;
the run fails with the parse-failure message and no delivery call. -/
theorem parseFail_no_send_witness :
    (runHandler envParseFail reqSample).1.success = false ∧
      (runHandler envParseFail reqSample).1.message =
        "Failed to generate newsletter: Failed to parse generated newsletter content" ∧
      sendCalls (runHandler envParseFail reqSample).2 = [] :=
  parseFail_no_send envParseFail reqSample [0.1] [sampleResult]
    "no markers here" rfl rfl (List.cons_ne_nil _ _) rfl
    (Or.inl (by decide))

/-- String append is associative. -/
theorem str_append_assoc (a b c : String) : a ++ b ++ c = a ++ (b ++ c) := by
  cases a with
  | mk la =>
    cases b with
    | mk lb =>
      cases c with
      | mk lc => exact congrArg String.mk (List.append_assoc la lb lc)

/-- A surviving record's metadata is the five-key object built by the
pipeline. -/
theorem processOne_metadata (env : EmbedEnv) (i : Nat) (a : NewsArticle)
    (r : VectorRecord) (h : processOne env i a = some r) :
    r.metadata = vectorMetadata a := by
  unfold processOne at h
  cases hE : generateEmbeddingWithRetry (fun k => env i k (textToEmbed a)) 2 with
  | ok v => rw [hE] at h; cases h; rfl
  | error e => rw [hE] at h; cases h

/-- C10. Every vector record constructed by the embedding pipeline has
metadata with exactly the keys `title`, `url`, `publishedAt`, `source`,
`content` — in particular neither `description` nor `author` — so for any
search result carrying such a record's metadata, the orchestrator's
rendered article-context block falls back to the defaults: it contains the
exact text `Author: Unknown` and `Description: No description`, whatever
the source document's actual author and description were. -/
theorem vectorMetadata_keys_and_render_defaults (env : EmbedEnv) (i : Nat)
    (a : NewsArticle) (r : VectorRecord) (h : processOne env i a = some r) :
    r.metadata.map Prod.fst = ["title", "url", "publishedAt", "source", "content"] ∧
      r.metadata.lookup "description" = none ∧
      r.metadata.lookup "author" = none ∧
      ∀ (fmtScore : Float → String) (idx : Nat) (id : String) (score : Float),
        (∃ p q, renderArticle fmtScore idx ⟨id, score, some r.metadata⟩ =
          p ++ "Author: Unknown" ++ q) ∧
        (∃ p q, renderArticle fmtScore idx ⟨id, score, some r.metadata⟩ =
          p ++ "Description: No description" ++ q) := by
  have hm := processOne_metadata env i a r h
  rw [hm]
  refine ⟨rfl, rfl, rfl, ?_⟩
  intro fmtScore idx id score
  have hau : mget (vectorMetadata a) "author" "Unknown" = "Unknown" := rfl
  have hde : mget (vectorMetadata a) "description" "No description" =
    "No description" := rfl
  constructor
  · refine ⟨"\nArticle " ++ toString (idx + 1) ++ ":\nTitle: " ++
      mget (vectorMetadata a) "title" "Untitled" ++ "\nSource: " ++
      mget (vectorMetadata a) "source" "Unknown" ++ "\n",
      "\nPublished: " ++
      mget (vectorMetadata a) "publishedAt" "Unknown date" ++ "\n" ++
      "Description: " ++
      mget (vectorMetadata a) "description" "No description" ++ "\nURL: " ++
      mget (vectorMetadata a) "url" "No URL" ++ "\nRelevance Score: " ++
      fmtScore score ++ "%\n", ?_⟩
    rw [show ("Author: Unknown" : String) = "Author: " ++ "Unknown" from by decide]
    simp only [renderArticle, Option.getD_some, hau, str_append_assoc]
  · refine ⟨"\nArticle " ++ toString (idx + 1) ++ ":\nTitle: " ++
      mget (vectorMetadata a) "title" "Untitled" ++ "\nSource: " ++
      mget (vectorMetadata a) "source" "Unknown" ++ "\n" ++ "Author: " ++
      mget (vectorMetadata a) "author" "Unknown" ++ "\nPublished: " ++
      mget (vectorMetadata a) "publishedAt" "Unknown date" ++ "\n",
      "\nURL: " ++
      mget (vectorMetadata a) "url" "No URL" ++ "\nRelevance Score: " ++
      fmtScore score ++ "%\n", ?_⟩
    rw [show ("Description: No description" : String) =
      "Description: " ++ "No description" from by decide]
    simp only [renderArticle, Option.getD_some, hde, str_append_assoc]

/-- Witness for C10 at a concrete article/record: `recordA`'s metadata has
exactly the five pipeline keys and its rendered block contains both
fallback lines. -/
theorem vectorMetadata_keys_and_render_defaults_witness :
    recordA.metadata.map Prod.fst =
        ["title", "url", "publishedAt", "source", "content"] ∧
      recordA.metadata.lookup "description" = none ∧
      recordA.metadata.lookup "author" = none ∧
      ∀ (fmtScore : Float → String) (idx : Nat) (id : String) (score : Float),
        (∃ p q, renderArticle fmtScore idx ⟨id, score, some recordA.metadata⟩ =
          p ++ "Author: Unknown" ++ q) ∧
        (∃ p q, renderArticle fmtScore idx ⟨id, score, some recordA.metadata⟩ =
          p ++ "Description: No description" ++ q) :=
  vectorMetadata_keys_and_render_defaults envAllOk 0 articleA recordA (by rfl)

/-- Sanity: the SHA-256 model reproduces the FIPS 180-4 test vector for
`"abc"`, so the hash the id/dedup schemes depend on is the real SHA-256. -/
theorem sha256hex_abc :
    sha256hex "abc" =
      "ba7816bf8f01cfea414140de5dae2223b00361a396177a9cb410ff61f20015ad" := by
  rfl

/-- Sanity: the split literals of `renderArticle` reassemble to exactly the
source's template string on a concrete result. -/
theorem renderArticle_template_shape :
    renderArticle (fun _ => "93.0") 0 ⟨"id", 0.5, some (vectorMetadata articleA)⟩ =
      "\nArticle 1:\nTitle: Title A\nSource: TechCrunch\nAuthor: Unknown\nPublished: 2024-01-01T00:00:00Z\nDescription: No description\nURL: https://example.com/a\nRelevance Score: 93.0%\n" := by
  decide
